import Mathlib

/-!
Verification of the Simple Chat API (`src/main.py`).

The service exposes four routes:
  * `POST /chat`        — rule-based responder (`chat_endpoint`);
  * `POST /chat/openai` — proxy to an external chat-completion provider
                          (`openai_chat_endpoint`);
  * `GET  /health`      — health report (`health_check`);
  * a global exception handler (`global_exception_handler`).

The embedding below translates each handler into a pure Lean function.
The external provider is modelled as a function argument from the exact
call record the handler builds (`openaiCall`) to a provider outcome;
HTTP failure is an `Except` error carrying status code and detail.
-/

namespace SimpleChatApi

/-- A character CPython's `str.strip()` removes: the Unicode whitespace
set used by `Py_UNICODE_ISSPACE` (ASCII whitespace, the C1 separators,
NEL, NBSP and the Unicode space separators). -/
def pyIsSpace (c : Char) : Bool :=
  c == ' ' || c == '\t' || c == '\n' || c == '\r' ||
  c == Char.ofNat 0x0b || c == Char.ofNat 0x0c ||
  (decide (0x1c ≤ c.toNat) && decide (c.toNat ≤ 0x1f)) ||
  c == Char.ofNat 0x85 || c == Char.ofNat 0xa0 || c == Char.ofNat 0x1680 ||
  (decide (0x2000 ≤ c.toNat) && decide (c.toNat ≤ 0x200a)) ||
  c == Char.ofNat 0x2028 || c == Char.ofNat 0x2029 ||
  c == Char.ofNat 0x202f || c == Char.ofNat 0x205f || c == Char.ofNat 0x3000

/-- CPython `str.strip()`: drop leading and trailing whitespace. -/
def pyStrip (s : String) : String :=
  String.mk (((s.data.dropWhile pyIsSpace).reverse.dropWhile pyIsSpace).reverse)

/-- CPython `str.lower()`, restricted to the ASCII range (the only range
the handlers compare against). -/
def pyLower (s : String) : String :=
  String.mk (s.data.map Char.toLower)

/-- An ASCII apostrophe, kept out of string literals so templates can be
assembled explicitly. -/
def squote : String := String.singleton (Char.ofNat 39)

/-- Body of a FastAPI `HTTPException`: status code and detail message. -/
structure HTTPError where
  status : Nat
  detail : String
deriving DecidableEq, Repr

/-- `MessageResponse` model of `main.py`. -/
structure MessageResponse where
  response : String
  original_message : String
deriving DecidableEq, Repr

/-- The echo template of the final `else` branch of `chat_endpoint`:
`f"I received your message: '{input_message}'. How can I assist you?"`. -/
def echoTemplate (input_message : String) : String :=
  "I received your message: " ++ squote ++ input_message ++ squote ++
  ". How can I assist you?"

/-- The `/chat` handler of `main.py` (lines 112-160).  The body trims the
message, lower-cases it for each comparison, and builds the response; no
operation in the `try` block can raise, so the `except` branch (status
500) is never taken and the result is always `.ok`. -/
def chat_endpoint (message : String) : Except HTTPError MessageResponse :=
  let input_message := pyStrip message
  let response_text :=
    if pyLower input_message = "how are you" then
      "I am fine"
    else if pyLower input_message = "hello" ∨ pyLower input_message = "hi" then
      "Hello! How can I help you?"
    else if pyLower input_message = "bye" ∨ pyLower input_message = "goodbye" then
      "Goodbye! Have a great day!"
    else
      echoTemplate input_message
  Except.ok { response := response_text, original_message := input_message }

/-- CPython truthiness of `os.getenv("OPENAI_API_KEY")`: `None` (variable
unset) and the empty string are falsy, every other string is truthy
(line 29, `if not OPENAI_API_KEY`). -/
def pyTruthy : Option String → Bool
  | none => false
  | some s => s ≠ ""

/-- Module-level client initialisation (lines 27-34): `openai_client` is
`None` when the key is falsy, otherwise a constructed client (carrying
no further data relevant here). -/
def mkOpenaiClient (key : Option String) : Option Unit :=
  if pyTruthy key then some () else none

/-- `OpenAIChatRequest` model of `main.py`, with its field defaults. -/
structure OpenAIChatRequest where
  message : String
  model : String := "gpt-3.5-turbo"
  max_tokens : Int := 150
  temperature : ℚ := 7/10
deriving DecidableEq, Repr

/-- One entry of the `messages` array sent to the provider. -/
structure ChatMessage where
  role : String
  content : String
deriving DecidableEq, Repr

/-- The argument record of `openai_client.chat.completions.create`. -/
structure CompletionCall where
  model : String
  messages : List ChatMessage
  max_tokens : Int
  temperature : ℚ
deriving DecidableEq, Repr

/-- The `usage` object of a provider reply. -/
structure Usage where
  total_tokens : Int
deriving DecidableEq, Repr

/-- A provider reply: the contents of its `choices` and the optional
`usage` object. -/
structure ProviderResponse where
  choices : List String
  usage : Option Usage
deriving DecidableEq, Repr

/-- Outcome of the provider call: a reply, or one of the exception
classes the handler distinguishes.  `AuthenticationError` and
`RateLimitError` are subclasses of `APIError`, but the `except` clauses
at lines 223-239 test them first, so the four cases are disjoint here. -/
inductive ProviderOutcome where
  | ok (resp : ProviderResponse)
  | authenticationError (msg : String)
  | rateLimitError (msg : String)
  | apiError (msg : String)
  | otherError (msg : String)
deriving DecidableEq, Repr

/-- The fixed system prompt (line 196). -/
def systemPrompt : String :=
  "You are a helpful assistant. Provide concise and friendly responses."

/-- The call record the handler passes to
`openai_client.chat.completions.create` (lines 193-201): caller model,
a system turn with the fixed prompt plus one user turn holding the
trimmed message, caller `max_tokens` and `temperature`. -/
def openaiCall (req : OpenAIChatRequest) : CompletionCall :=
  { model := req.model,
    messages := [⟨"system", systemPrompt⟩, ⟨"user", pyStrip req.message⟩],
    max_tokens := req.max_tokens,
    temperature := req.temperature }

/-- `OpenAIChatResponse` model of `main.py`. -/
structure OpenAIChatResponse where
  response : String
  original_message : String
  model_used : String
  tokens_used : Option Int := none
deriving DecidableEq, Repr

/-- The `/chat/openai` handler of `main.py` (lines 162-239).  The
provider is a function from the call record to an outcome.  With no
client the handler raises 503 before calling anything; otherwise it
extracts `response.choices[0]` (an empty `choices` raises `IndexError`,
caught by the blanket `except` as a 500) and builds the response, taking
`tokens_used` from `usage.total_tokens` when `usage` is truthy.  The
typed `except` clauses map the three provider errors to 401, 429 and
502, and anything else to 500. -/
def openai_chat_endpoint (openai_client : Option Unit)
    (provider : CompletionCall → ProviderOutcome)
    (req : OpenAIChatRequest) : Except HTTPError OpenAIChatResponse :=
  match openai_client with
  | none =>
      Except.error ⟨503,
        "OpenAI service is not available. Please set OPENAI_API_KEY environment variable."⟩
  | some _ =>
      match provider (openaiCall req) with
      | .ok resp =>
          match resp.choices.head? with
          | none =>
              Except.error ⟨500, "Internal server error: list index out of range"⟩
          | some ai_response =>
              Except.ok
                { response := ai_response,
                  original_message := pyStrip req.message,
                  model_used := req.model,
                  tokens_used := resp.usage.map Usage.total_tokens }
      | .authenticationError _ =>
          Except.error ⟨401, "OpenAI authentication failed. Please check your API key."⟩
      | .rateLimitError _ =>
          Except.error ⟨429, "OpenAI rate limit exceeded. Please try again later."⟩
      | .apiError msg =>
          Except.error ⟨502, "OpenAI API error: " ++ msg⟩
      | .otherError msg =>
          Except.error ⟨500, "Internal server error: " ++ msg⟩

/-- Body of the `/health` reply. -/
structure HealthStatus where
  status : String
  service : String
  openai_status : String
deriving DecidableEq, Repr

/-- The `/health` handler of `main.py` (lines 241-252). -/
def health_check (openai_client : Option Unit) : HealthStatus :=
  { status := "healthy",
    service := "Simple Chat API",
    openai_status := if openai_client.isSome then "enabled" else "disabled" }

/-- A value a Starlette exception handler may return: a proper HTTP
response (status code plus body pairs), or a bare Python dict, which
Starlette cannot send as a response. -/
inductive ExcHandlerReturn where
  | response (status : Nat) (body : List (String × String))
  | dict (body : List (String × String))
deriving DecidableEq, Repr

/-- The global exception handler of `main.py` (lines 255-261): it logs
and then returns the plain dict
`{"error": "Internal server error", "detail": str(exc)}` — it never
constructs a `Response`, so no status code (500 or otherwise) is set. -/
def global_exception_handler (exc : String) : ExcHandlerReturn :=
  .dict [("error", "Internal server error"), ("detail", exc)]

/-! ## The `/chat` handler -/

/-- `chat_endpoint` with its local bindings inlined. -/
lemma chat_endpoint_def (m : String) :
    chat_endpoint m =
      Except.ok
        { response :=
            if pyLower (pyStrip m) = "how are you" then "I am fine"
            else if pyLower (pyStrip m) = "hello" ∨ pyLower (pyStrip m) = "hi" then
              "Hello! How can I help you?"
            else if pyLower (pyStrip m) = "bye" ∨ pyLower (pyStrip m) = "goodbye" then
              "Goodbye! Have a great day!"
            else echoTemplate (pyStrip m),
          original_message := pyStrip m } := rfl

/-- C1: a message whose trimmed, lower-cased form matches none of the five
keywords gets the echo template over the trimmed input, and every `/chat`
response carries the trimmed input (never the raw one) as
`original_message`. -/
theorem chat_echo_and_original :
    (∀ m : String,
      pyLower (pyStrip m) ∉ ["how are you", "hello", "hi", "bye", "goodbye"] →
      chat_endpoint m =
        Except.ok { response := echoTemplate (pyStrip m),
                    original_message := pyStrip m }) ∧
    (∀ m : String, ∀ r, chat_endpoint m = Except.ok r →
      r.original_message = pyStrip m) := by
  constructor
  · intro m h
    simp only [List.mem_cons, List.not_mem_nil, or_false, not_or] at h
    obtain ⟨h1, h2, h3, h4, h5⟩ := h
    rw [chat_endpoint_def, if_neg h1, if_neg (by simp [h2, h3]),
      if_neg (by simp [h4, h5])]
  · intro m r hr
    rw [chat_endpoint_def] at hr
    injection hr with hr
    rw [← hr]

/-- Witness for C1 at the concrete message `"  What is the weather  "`. -/
theorem chat_echo_and_original_witness :
    chat_endpoint "  What is the weather  " =
      Except.ok { response := echoTemplate "What is the weather",
                  original_message := "What is the weather" } :=
  chat_echo_and_original.1 "  What is the weather  " (by decide)

/-- C5: a message whose trimmed form equals `"how are you"`
case-insensitively gets the reply `"I am fine"`. -/
theorem chat_how_are_you (m : String)
    (h : pyLower (pyStrip m) = "how are you") :
    chat_endpoint m =
      Except.ok { response := "I am fine", original_message := pyStrip m } := by
  rw [chat_endpoint_def, if_pos h]

/-- Witness for C5 at the concrete message `"  HOW ARE YOU "`. -/
theorem chat_how_are_you_witness :
    chat_endpoint "  HOW ARE YOU " =
      Except.ok { response := "I am fine", original_message := "HOW ARE YOU" } :=
  chat_how_are_you "  HOW ARE YOU " (by decide)

/-- C6: a message whose trimmed, case-folded form is `"hello"` or `"hi"`
gets the fixed greeting; in particular `"  Hello  "` yields the greeting
with `original_message = "Hello"`. -/
theorem chat_greeting (m : String)
    (h : pyLower (pyStrip m) = "hello" ∨ pyLower (pyStrip m) = "hi") :
    chat_endpoint m =
      Except.ok { response := "Hello! How can I help you?",
                  original_message := pyStrip m } ∧
    chat_endpoint "  Hello  " =
      Except.ok { response := "Hello! How can I help you?",
                  original_message := "Hello" } := by
  refine ⟨?_, rfl⟩
  have h1 : pyLower (pyStrip m) ≠ "how are you" := by
    rcases h with h | h <;> simp [h]
  rw [chat_endpoint_def, if_neg h1, if_pos h]

/-- Witness for C6 at the concrete message `"  Hello  "`. -/
theorem chat_greeting_witness :
    chat_endpoint "  Hello  " =
      Except.ok { response := "Hello! How can I help you?",
                  original_message := "Hello" } :=
  (chat_greeting "  Hello  " (by decide)).1

/-- C7: a message whose trimmed form equals `"bye"` or `"goodbye"` in any
letter case gets the fixed farewell. -/
theorem chat_farewell (m : String)
    (h : pyLower (pyStrip m) = "bye" ∨ pyLower (pyStrip m) = "goodbye") :
    chat_endpoint m =
      Except.ok { response := "Goodbye! Have a great day!",
                  original_message := pyStrip m } := by
  have h1 : pyLower (pyStrip m) ≠ "how are you" := by
    rcases h with h | h <;> simp [h]
  have h2 : ¬(pyLower (pyStrip m) = "hello" ∨ pyLower (pyStrip m) = "hi") := by
    rcases h with h | h <;> simp [h]
  rw [chat_endpoint_def, if_neg h1, if_neg h2, if_pos h]

/-- Witness for C7 at the concrete message `"GoodBye"`. -/
theorem chat_farewell_witness :
    chat_endpoint "GoodBye" =
      Except.ok { response := "Goodbye! Have a great day!",
                  original_message := "GoodBye" } :=
  chat_farewell "GoodBye" (by decide)

/-- C9: the `/chat` handler is total and deterministic — every input
succeeds (its error branch is unreachable) and equal inputs give equal
responses. -/
theorem chat_deterministic_total (m : String) :
    (∃ r, chat_endpoint m = Except.ok r) ∧
    (∀ e, chat_endpoint m ≠ Except.error e) ∧
    (∀ m2, m = m2 → chat_endpoint m = chat_endpoint m2) := by
  refine ⟨⟨_, chat_endpoint_def m⟩, ?_, ?_⟩
  · intro e he
    rw [chat_endpoint_def] at he
    exact Except.noConfusion he
  · intro m2 hm
    rw [hm]

/-- Witness for C9 at the concrete message `"bye"`. -/
theorem chat_deterministic_total_witness :
    chat_endpoint "bye" = chat_endpoint "bye" :=
  (chat_deterministic_total "bye").2.2 "bye" rfl

/-! ## The `/chat/openai` handler -/

/-- The success path of `openai_chat_endpoint`: with a configured client,
a provider reply and a first choice, the handler returns 200 with the
assembled response. -/
lemma openai_chat_endpoint_ok (provider : CompletionCall → ProviderOutcome)
    (req : OpenAIChatRequest) (resp : ProviderResponse) (content : String)
    (hp : provider (openaiCall req) = .ok resp)
    (hc : resp.choices.head? = some content) :
    openai_chat_endpoint (some ()) provider req =
      Except.ok { response := content,
                  original_message := pyStrip req.message,
                  model_used := req.model,
                  tokens_used := resp.usage.map Usage.total_tokens } := by
  simp [openai_chat_endpoint, hp, hc]

/-- C2: with a configured client, the provider's exception classes map to
the distinct HTTP statuses 401 (authentication), 429 (rate limit),
502 (generic API error) and 500 (anything else). -/
theorem openai_error_mapping (openai_client : Option Unit)
    (provider : CompletionCall → ProviderOutcome) (req : OpenAIChatRequest)
    (hc : openai_client = some ()) :
    (∀ msg, provider (openaiCall req) = .authenticationError msg →
      openai_chat_endpoint openai_client provider req =
        Except.error ⟨401, "OpenAI authentication failed. Please check your API key."⟩) ∧
    (∀ msg, provider (openaiCall req) = .rateLimitError msg →
      openai_chat_endpoint openai_client provider req =
        Except.error ⟨429, "OpenAI rate limit exceeded. Please try again later."⟩) ∧
    (∀ msg, provider (openaiCall req) = .apiError msg →
      openai_chat_endpoint openai_client provider req =
        Except.error ⟨502, "OpenAI API error: " ++ msg⟩) ∧
    (∀ msg, provider (openaiCall req) = .otherError msg →
      openai_chat_endpoint openai_client provider req =
        Except.error ⟨500, "Internal server error: " ++ msg⟩) := by
  subst hc
  refine ⟨?_, ?_, ?_, ?_⟩ <;> intro msg hp <;> simp [openai_chat_endpoint, hp]

/-- Witness for C2: a provider raising an authentication error yields
status 401. -/
theorem openai_error_mapping_witness :
    openai_chat_endpoint (some ())
        (fun _ => .authenticationError "bad key")
        { message := "hi" } =
      Except.error ⟨401, "OpenAI authentication failed. Please check your API key."⟩ :=
  (openai_error_mapping (some ()) (fun _ => .authenticationError "bad key")
    { message := "hi" } rfl).1 "bad key" rfl

/-- Counterexample for C3 as stated: setting the credential variable to
the empty string is "set", yet the client stays `None` and `/health`
reports `"disabled"`, not `"enabled"`. -/
theorem openai_enabled_counterexample :
    (some "" ≠ (none : Option String)) ∧
    (health_check (mkOpenaiClient (some ""))).openai_status = "disabled" ∧
    (health_check (mkOpenaiClient (some ""))).openai_status ≠ "enabled" := by
  refine ⟨?_, rfl, ?_⟩ <;> decide

/-- C3 (amended): with the credential variable unset, every
`/chat/openai` call fails with 503 and `/health` reports `"disabled"`;
with the credential set to a non-empty string, it reports `"enabled"`. -/
theorem openai_disabled_amended (key : Option String) :
    (key = none →
      (∀ provider req, openai_chat_endpoint (mkOpenaiClient key) provider req =
        Except.error ⟨503,
          "OpenAI service is not available. Please set OPENAI_API_KEY environment variable."⟩) ∧
      (health_check (mkOpenaiClient key)).openai_status = "disabled") ∧
    (∀ s, key = some s → s ≠ "" →
      (health_check (mkOpenaiClient key)).openai_status = "enabled") := by
  constructor
  · rintro rfl
    exact ⟨fun provider req => rfl, rfl⟩
  · rintro s rfl hs
    simp [mkOpenaiClient, pyTruthy, health_check, hs]

/-- Witness for C3 (amended) at `key = none` and `key = some "sk-test"`. -/
theorem openai_disabled_amended_witness :
    openai_chat_endpoint (mkOpenaiClient none)
        (fun _ => .ok ⟨["Hi there!"], none⟩) { message := "hi" } =
      Except.error ⟨503,
        "OpenAI service is not available. Please set OPENAI_API_KEY environment variable."⟩ ∧
    (health_check (mkOpenaiClient none)).openai_status = "disabled" ∧
    (health_check (mkOpenaiClient (some "sk-test"))).openai_status = "enabled" :=
  ⟨((openai_disabled_amended none).1 rfl).1 _ _,
   ((openai_disabled_amended none).1 rfl).2,
   (openai_disabled_amended (some "sk-test")).2 "sk-test" rfl (by decide)⟩

/-- C8: a successful `/chat/openai` request forwards exactly the trimmed
message as the single user turn after the fixed system prompt, passes
`model`, `max_tokens` and `temperature` through unmodified, and returns
`model_used` = caller model and `original_message` = trimmed input. -/
theorem openai_forwarding (provider : CompletionCall → ProviderOutcome)
    (req : OpenAIChatRequest) (resp : ProviderResponse) (content : String)
    (hp : provider (openaiCall req) = .ok resp)
    (hc : resp.choices.head? = some content) :
    openai_chat_endpoint (some ()) provider req =
      Except.ok { response := content,
                  original_message := pyStrip req.message,
                  model_used := req.model,
                  tokens_used := resp.usage.map Usage.total_tokens } ∧
    openaiCall req =
      { model := req.model,
        messages := [⟨"system", systemPrompt⟩, ⟨"user", pyStrip req.message⟩],
        max_tokens := req.max_tokens,
        temperature := req.temperature } :=
  ⟨openai_chat_endpoint_ok provider req resp content hp hc, rfl⟩

/-- Witness for C8 with a concrete request and provider reply. -/
theorem openai_forwarding_witness :
    openai_chat_endpoint (some ())
        (fun _ => .ok ⟨["Hi there!"], some ⟨42⟩⟩)
        { message := "  tell me a joke  ", model := "gpt-4",
          max_tokens := 100, temperature := 1/2 } =
      Except.ok { response := "Hi there!",
                  original_message := "tell me a joke",
                  model_used := "gpt-4",
                  tokens_used := some 42 } :=
  (openai_forwarding (fun _ => .ok ⟨["Hi there!"], some ⟨42⟩⟩)
    { message := "  tell me a joke  ", model := "gpt-4",
      max_tokens := 100, temperature := 1/2 }
    ⟨["Hi there!"], some ⟨42⟩⟩ "Hi there!" rfl rfl).1

/-- C10: on a successful `/chat/openai` request, `tokens_used` is `none`
exactly when the provider reply carries no `usage`, and otherwise equals
the provider-reported `total_tokens`. -/
theorem openai_tokens_used (provider : CompletionCall → ProviderOutcome)
    (req : OpenAIChatRequest) (resp : ProviderResponse) (content : String)
    (r : OpenAIChatResponse)
    (hp : provider (openaiCall req) = .ok resp)
    (hc : resp.choices.head? = some content)
    (hr : openai_chat_endpoint (some ()) provider req = Except.ok r) :
    (r.tokens_used = none ↔ resp.usage = none) ∧
    (∀ u, resp.usage = some u → r.tokens_used = some u.total_tokens) := by
  have ht : r.tokens_used = resp.usage.map Usage.total_tokens := by
    rw [openai_chat_endpoint_ok provider req resp content hp hc] at hr
    injection hr with hr
    rw [← hr]
  rw [ht]
  constructor
  · cases resp.usage <;> simp
  · intro u hu
    rw [hu]
    rfl

/-- Witness for C10 with a concrete provider reply carrying usage. -/
theorem openai_tokens_used_witness :
    ((some (7 : Int) : Option Int) = none ↔ (some ⟨7⟩ : Option Usage) = none) ∧
    (∀ u, (some ⟨7⟩ : Option Usage) = some u →
      (some (7 : Int) : Option Int) = some u.total_tokens) :=
  openai_tokens_used (fun _ => .ok ⟨["ok"], some ⟨7⟩⟩) { message := "hi" }
    ⟨["ok"], some ⟨7⟩⟩ "ok"
    { response := "ok", original_message := "hi",
      model_used := "gpt-3.5-turbo", tokens_used := some 7 }
    rfl rfl rfl

/-! ## The global exception handler -/

/-- C4 (code observation): for every exception, the global handler
returns the bare dict `{"error": "Internal server error",
"detail": str(exc)}` — a `.dict`, not a `.response`, so no HTTP status
code (in particular not 500) is ever attached to it. -/
theorem global_handler_returns_bare_dict (exc : String) :
    global_exception_handler exc =
      ExcHandlerReturn.dict [("error", "Internal server error"), ("detail", exc)] :=
  rfl

end SimpleChatApi
